import Mathlib

/-
Verification of the enhanced_whisper transcription pipeline
(src/enhanced_whisper.py) against its natural-language specification.

The pipeline is shallowly embedded: Python floats are modelled as exact
rationals, the three external model collaborators (recognition, alignment,
diarization) are oracle functions supplied in an environment record, and the
side effects of a run (directory creation, logging, file writes, resource
cleanup) are recorded as an event trace.
-/

namespace EnhancedWhisper

/-! ## Timestamp formatting (source: EnhancedTranscriber._format_timestamp) -/

/-- Python float modulo for the cases used by the formatter: for a divisor
b and dividend a, Python computes a - b * floor(a / b). -/
def qmod (a b : ℚ) : ℚ := a - b * ⌊a / b⌋

/-- Python int() applied to a float: truncation toward zero. -/
def pyint (x : ℚ) : ℤ := if 0 ≤ x then ⌊x⌋ else ⌈x⌉

/-- A run of k zero characters. -/
def zeros (k : ℕ) : String := String.mk (List.replicate k '0')

/-- Zero padding of a natural number to a minimum width. -/
def padNat (w : ℕ) (m : ℕ) : String := zeros (w - (toString m).length) ++ toString m

/-- Python formatting of an integer under a 0-padded minimum-width format
spec (as in the 02d and 03d specs of the source). -/
def pyfmt (w : ℕ) (n : ℤ) : String :=
  if n < 0 then "-" ++ padNat (w - 1) n.natAbs else padNat w n.toNat

/-- Embeds EnhancedTranscriber._format_timestamp (lines 163-170 of the
source):
hours = int(seconds // 3600); minutes = int((seconds % 3600) // 60);
secs = int(seconds % 60); millisecs = int((seconds * 1000) % 1000);
rendered with the 02d / 03d zero-padded format specs, colon separators and a
comma before the milliseconds.  Note int() applied to the integral float
produced by // is the identity, so hours and minutes are floors directly. -/
def format_timestamp (seconds : ℚ) : String :=
  pyfmt 2 ⌊seconds / 3600⌋ ++ ":" ++
    pyfmt 2 ⌊qmod seconds 3600 / 60⌋ ++ ":" ++
    pyfmt 2 (pyint (qmod seconds 60)) ++ "," ++
    pyfmt 3 (pyint (qmod (seconds * 1000) 1000))

/-- The timestamp contract written from the specification text: hours =
floor(seconds/3600), minutes = floor((seconds mod 3600)/60), whole seconds =
floor(seconds mod 60), milliseconds = floor((seconds*1000) mod 1000), each
zero-padded (two digits for hours, minutes, seconds; three for milliseconds)
with a comma as the sub-second separator. -/
def spec_timestamp (seconds : ℚ) : String :=
  padNat 2 (⌊seconds / 3600⌋).toNat ++ ":" ++
    padNat 2 (⌊(seconds - 3600 * ⌊seconds / 3600⌋) / 60⌋).toNat ++ ":" ++
    padNat 2 (⌊seconds - 60 * ⌊seconds / 60⌋⌋).toNat ++ "," ++
    padNat 3 (⌊seconds * 1000 - 1000 * ⌊seconds * 1000 / 1000⌋⌋).toNat

theorem qmod_nonneg (a b : ℚ) (hb : 0 < b) : 0 ≤ qmod a b := by
  unfold qmod
  have h1 : (⌊a / b⌋ : ℚ) ≤ a / b := Int.floor_le _
  have h2 : b * (⌊a / b⌋ : ℚ) ≤ b * (a / b) := mul_le_mul_of_nonneg_left h1 hb.le
  have h3 : b * (a / b) = a := by field_simp
  linarith

theorem pyint_nonneg (x : ℚ) (h : 0 ≤ x) : pyint x = ⌊x⌋ := if_pos h

theorem pyfmt_nonneg (w : ℕ) (n : ℤ) (h : 0 ≤ n) : pyfmt w n = padNat w n.toNat := by
  unfold pyfmt
  rw [if_neg (not_lt.mpr h)]

theorem format_timestamp_eval (s : ℚ) (h m ss ms : ℤ)
    (hh : ⌊s / 3600⌋ = h) (hm : ⌊qmod s 3600 / 60⌋ = m)
    (hs : pyint (qmod s 60) = ss) (hms : pyint (qmod (s * 1000) 1000) = ms) :
    format_timestamp s = pyfmt 2 h ++ ":" ++ pyfmt 2 m ++ ":" ++ pyfmt 2 ss ++ "," ++ pyfmt 3 ms := by
  unfold format_timestamp
  rw [hh, hm, hs, hms]

/-- C4: the timestamp formatter maps 0 to 00:00:00,000, 3661.5 to
01:01:01,500 and 59.999 to 00:00:59,999 — sub-second digits by truncation,
not rounding.  The float literals of the claim are represented by their
exact rational values (the nearest double to 59.999 also yields 999
milliseconds, since 59.999... * 1000 rounds to exactly 59999.0). -/
theorem format_timestamp_examples :
    format_timestamp 0 = "00:00:00,000" ∧
    format_timestamp (7323 / 2) = "01:01:01,500" ∧
    format_timestamp (59999 / 1000) = "00:00:59,999" := by
  refine ⟨?_, ?_, ?_⟩
  · rw [format_timestamp_eval 0 0 0 0 0]
    · decide
    · norm_num
    · unfold qmod; norm_num
    · unfold pyint qmod; norm_num
    · unfold pyint qmod; norm_num
  · rw [format_timestamp_eval (7323 / 2) 1 1 1 500]
    · decide
    · norm_num
    · unfold qmod; norm_num
    · unfold pyint qmod; norm_num
    · unfold pyint qmod; norm_num
  · rw [format_timestamp_eval (59999 / 1000) 0 0 59 999]
    · decide
    · norm_num
    · unfold qmod; norm_num
    · unfold pyint qmod; norm_num
    · unfold pyint qmod; norm_num

/-- C5: for every nonnegative input the formatter agrees with the
specification formula: HH:MM:SS,mmm with hours = floor(seconds/3600),
minutes = floor((seconds mod 3600)/60), whole seconds = floor(seconds mod
60), milliseconds = floor((seconds*1000) mod 1000), zero-padded to two (resp.
three) digits and a comma as sub-second separator. -/
theorem format_timestamp_spec (seconds : ℚ) (h : 0 ≤ seconds) :
    format_timestamp seconds = spec_timestamp seconds := by
  have hs0 : 0 ≤ qmod seconds 60 := qmod_nonneg _ _ (by norm_num)
  have hms0 : 0 ≤ qmod (seconds * 1000) 1000 := qmod_nonneg _ _ (by norm_num)
  have hh : (0 : ℤ) ≤ ⌊seconds / 3600⌋ := Int.floor_nonneg.mpr (by positivity)
  have hm : (0 : ℤ) ≤ ⌊qmod seconds 3600 / 60⌋ :=
    Int.floor_nonneg.mpr (div_nonneg (qmod_nonneg _ _ (by norm_num)) (by norm_num))
  unfold format_timestamp spec_timestamp
  rw [pyint_nonneg _ hs0, pyint_nonneg _ hms0, pyfmt_nonneg _ _ hh, pyfmt_nonneg _ _ hm,
    pyfmt_nonneg _ _ (Int.floor_nonneg.mpr hs0), pyfmt_nonneg _ _ (Int.floor_nonneg.mpr hms0)]
  unfold qmod
  rfl

/-- Witness for C5 at seconds = 7323/2. -/
theorem format_timestamp_spec_witness :
    0 ≤ (7323 / 2 : ℚ) ∧ format_timestamp (7323 / 2) = spec_timestamp (7323 / 2) :=
  ⟨by norm_num, format_timestamp_spec (7323 / 2) (by norm_num)⟩

/-! ## Data model

One record per collaborator schema, plus the unified segment shape consumed
by the output writer.  The writer subscripts each segment for start, end and
text and tests for the presence of a speaker key; presence of a key is
modelled by an Option field. -/

/-- A word-level timing triple (interface of the recognition and alignment
collaborators); the end field of the source is spelled end_ because end is a
reserved word. -/
structure Word where
  word : String
  start : ℚ
  end_ : ℚ
deriving DecidableEq

/-- Unified segment shape handed to the output writer: start, end, text,
an optional speaker label (key present only after a successful diarization
merge) and an optional word list. -/
structure Segment where
  start : ℚ
  end_ : ℚ
  text : String
  speaker : Option String := none
  words : Option (List Word) := none
deriving DecidableEq

/-- A raw recognition-stage segment (interface of the recognition
collaborator): start, end, text and an optional word list (the source reads
s.words or [], so absence is possible).  No speaker field exists at this
stage. -/
structure RawSegment where
  start : ℚ
  end_ : ℚ
  text : String
  words : Option (List Word) := none
deriving DecidableEq

/-- A raw recognition segment viewed through the writer's unified shape:
no speaker key is present on it. -/
def rawToSegment (s : RawSegment) : Segment :=
  ⟨s.start, s.end_, s.text, none, s.words⟩

/-- The shape the source builds for the alignment collaborator (lines 86-97):
start, end, text and the word list with None replaced by []. -/
structure WhisperXSegment where
  start : ℚ
  end_ : ℚ
  text : String
  words : List Word
deriving DecidableEq

/-- The conversion of lines 86-97 of the source: s.start, s.end, s.text and
s.words or []. -/
def toWhisperXSegment (s : Segment) : WhisperXSegment :=
  ⟨s.start, s.end_, s.text, s.words.getD []⟩

/-- A segment as returned by the alignment collaborator: refined timing,
a word list, and no speaker key. -/
structure AlignedSegment where
  start : ℚ
  end_ : ℚ
  text : String
  words : List Word
deriving DecidableEq

/-- An aligned segment viewed through the writer's unified shape: the
collaborator's dict carries no speaker key, so the speaker field is absent. -/
def alignedToSegment (s : AlignedSegment) : Segment :=
  ⟨s.start, s.end_, s.text, none, some s.words⟩

/-! ## Output writer (source: EnhancedTranscriber._save_outputs) -/

/-- Lines 143-145 and 153-155 of the source: the text line is the segment
text, with the bracketed speaker label prepended exactly when the segment
carries a speaker key. -/
def speaker_text (segment : Segment) : String :=
  match segment.speaker with
  | some sp => "[" ++ sp ++ "] " ++ segment.text
  | none => segment.text

/-- One SRT cue (lines 139-146): the 1-based cue number, the timestamp line,
the (optionally speaker-prefixed) text, and the blank separator line; each
print call appends a newline. -/
def srt_block (i : ℕ) (segment : Segment) : String :=
  toString i ++ "\n" ++
    format_timestamp segment.start ++ " --> " ++ format_timestamp segment.end_ ++ "\n" ++
    speaker_text segment ++ "\n\n"

/-- The SRT file content: cues numbered from 1 in sequence order. -/
def srt_content (segments : List Segment) : String :=
  String.join ((List.enumFrom 1 segments).map fun p => srt_block p.1 p.2)

/-- One plain-text block (lines 151-156): bracketed timestamp line, the
(optionally speaker-prefixed) text, and a blank separator line. -/
def txt_block (segment : Segment) : String :=
  "[" ++ format_timestamp segment.start ++ " --> " ++ format_timestamp segment.end_ ++ "]" ++
    "\n" ++ speaker_text segment ++ "\n\n"

/-- The plain-text file content. -/
def txt_content (segments : List Segment) : String :=
  String.join (segments.map txt_block)

/-! ## Structured (JSON) output

json.dump writes the segment sequence as a JSON document and json.load of
that document is the identity on it, so serialization is modelled at the
document level: a segment maps to an object whose keys are exactly the
fields present on it. -/

/-- A JSON document. -/
inductive Json where
  | null : Json
  | str (s : String) : Json
  | num (q : ℚ) : Json
  | arr (elems : List Json) : Json
  | obj (fields : List (String × Json)) : Json

/-- The JSON object for one word triple. -/
def wordToJson (w : Word) : Json :=
  Json.obj [("word", Json.str w.word), ("start", Json.num w.start), ("end", Json.num w.end_)]

/-- The JSON object json.dump produces for one segment: start, end and text
always; a speaker key exactly when the segment carries one; a words key
exactly when the segment carries a word list. -/
def segmentToJson (s : Segment) : Json :=
  Json.obj
    ([("start", Json.num s.start), ("end", Json.num s.end_), ("text", Json.str s.text)] ++
      (match s.speaker with
       | some sp => [("speaker", Json.str sp)]
       | none => []) ++
      (match s.words with
       | some ws => [("words", Json.arr (ws.map wordToJson))]
       | none => []))

/-- The serialized document for the whole sequence. -/
def segmentsToJson (segments : List Segment) : Json :=
  Json.arr (segments.map segmentToJson)

/-- Decodes every element of a JSON array, failing if any element fails. -/
def decodeList {α : Type} (dec : Json → Option α) : List Json → Option (List α)
  | [] => some []
  | j :: js =>
    match dec j, decodeList dec js with
    | some a, some as => some (a :: as)
    | _, _ => none

/-- Parses a word object back. -/
def jsonToWord (j : Json) : Option Word :=
  match j with
  | Json.obj fields =>
    match fields.lookup "word", fields.lookup "start", fields.lookup "end" with
    | some (Json.str w), some (Json.num a), some (Json.num b) => some ⟨w, a, b⟩
    | _, _, _ => none
  | _ => none

/-- Parses a segment object back: start, end and text are required; the
speaker and words keys are read when present. -/
def jsonToSegment (j : Json) : Option Segment :=
  match j with
  | Json.obj fields =>
    match fields.lookup "start", fields.lookup "end", fields.lookup "text" with
    | some (Json.num a), some (Json.num b), some (Json.str t) =>
      let sp : Option String :=
        match fields.lookup "speaker" with
        | some (Json.str s) => some s
        | _ => none
      match fields.lookup "words" with
      | some (Json.arr wjs) =>
        match decodeList jsonToWord wjs with
        | some ws => some ⟨a, b, t, sp, some ws⟩
        | none => none
      | _ => some ⟨a, b, t, sp, none⟩
    | _, _, _ => none
  | _ => none

/-- Parses the whole document back. -/
def jsonToSegments (j : Json) : Option (List Segment) :=
  match j with
  | Json.arr xs => decodeList jsonToSegment xs
  | _ => none

theorem jsonToWord_wordToJson (w : Word) : jsonToWord (wordToJson w) = some w := rfl

theorem decodeList_words (ws : List Word) :
    decodeList jsonToWord (ws.map wordToJson) = some ws := by
  induction ws with
  | nil => rfl
  | cons w ws ih => simp [decodeList, jsonToWord_wordToJson, ih]

theorem jsonToSegment_segmentToJson (s : Segment) :
    jsonToSegment (segmentToJson s) = some s := by
  obtain ⟨a, b, t, sp, ws⟩ := s
  cases sp <;> cases ws <;>
    simp [segmentToJson, jsonToSegment, List.lookup, decodeList_words]

/-- C9: serializing a segment sequence to the structured-data output and
parsing it back reconstructs the sequence exactly — in particular with the
same start, end, text and speaker values. -/
theorem json_roundtrip (segments : List Segment) :
    jsonToSegments (segmentsToJson segments) = some segments := by
  induction segments with
  | nil => rfl
  | cons s ss ih =>
    simp only [segmentsToJson, jsonToSegments, List.map_cons, decodeList,
      jsonToSegment_segmentToJson] at ih ⊢
    rw [ih]

/-! ## Path stem (base_name = Path(audio_path).stem, line 56) -/

/-- The final path component: characters after the last slash. -/
def afterLastSlash : List Char → List Char → List Char
  | [], acc => acc.reverse
  | x :: xs, acc =>
    if x = '/' then afterLastSlash xs [] else afterLastSlash xs (x :: acc)

/-- Drops the extension: everything from the last dot on, provided that dot
is not the leading character of the name. -/
def stripLastSuffix (name : List Char) : List Char :=
  match name.reverse.dropWhile (fun c => c ≠ '.') with
  | [] => name
  | _ :: rest => if rest = [] then name else rest.reverse

/-- Path(audio_path).stem: the final component without its extension. -/
def stem (path : String) : String :=
  String.mk (stripLastSuffix (afterLastSlash path.data []))

/-! ## Pipeline orchestrator (source: EnhancedTranscriber.transcribe)

The three model collaborators, being external, are oracles supplied in an
environment record; a fallible call is an Except value.  The side effects of
a run are recorded in order as an event trace. -/

/-- The loaded alignment model plus metadata, opaque to the orchestrator. -/
structure AlignModel where
  tag : ℕ
deriving DecidableEq

/-- The diarization collaborator's speaker-labeled time ranges, opaque to
the orchestrator. -/
abbrev DiarizeSegments := List (String × ℚ × ℚ)

/-- One observable side effect of a run, in program order. -/
inductive Event where
  | mkdirOutput (dir : String) : Event
  | recognitionInvoked : Event
  | warningLogged (msg : String) : Event
  | diarizationInvoked : Event
  | cleanup : Event
  | wrote (path : String) (content : String) : Event
  | wroteJson (path : String) (segments : List Segment) : Event
deriving DecidableEq

/-- The collaborator oracles of one run.  recognize covers
faster_model.transcribe plus the materializing list() call; cudaAvailable is
torch.cuda.is_available(). -/
structure Env where
  cudaAvailable : Bool
  recognize : Except String (List RawSegment)
  load_align_model : String → String → Except String AlignModel
  align : List WhisperXSegment → AlignModel → String → String → Except String (List AlignedSegment)
  diarize : String → String → Except String DiarizeSegments
  assign_word_speakers : DiarizeSegments → List AlignedSegment → Except String (List Segment)

/-- Line 79 of the source: device = cuda if torch.cuda.is_available() else
cpu (recomputed inside transcribe, independent of the constructor's device
argument). -/
def alignment_device (env : Env) : String :=
  if env.cudaAvailable then "cuda" else "cpu"

/-- The try block of lines 77-126: load the alignment model, convert,
align, optionally diarize, clean up, and replace segments_list with the
aligned result.  Any exception raised anywhere in the block is caught by
the except handler, which logs a warning and leaves segments_list as it
was before the block; statements of the block after the raise point (the
cleanup of lines 116-120 and the assignment of line 123 included) do not
run.  Returns the events of the block and the resulting segments_list. -/
def alignment_block (env : Env) (audio_path : String) (detect_speakers : Bool)
    (segments_list : List Segment) : List Event × List Segment :=
  match env.load_align_model "ja" (alignment_device env) with
  | .error e => ([Event.warningLogged e], segments_list)
  | .ok alignment_model =>
    match env.align (segments_list.map toWhisperXSegment) alignment_model audio_path
        (alignment_device env) with
    | .error e => ([Event.warningLogged e], segments_list)
    | .ok result_aligned =>
      if detect_speakers && alignment_device env != "cpu" then
        match env.diarize audio_path (alignment_device env) with
        | .error e => ([Event.diarizationInvoked, Event.warningLogged e], segments_list)
        | .ok diarize_segments =>
          match env.assign_word_speakers diarize_segments result_aligned with
          | .error e => ([Event.diarizationInvoked, Event.warningLogged e], segments_list)
          | .ok tagged => ([Event.diarizationInvoked, Event.cleanup], tagged)
      else
        ([Event.cleanup], result_aligned.map alignedToSegment)

/-- The three file writes of _save_outputs (lines 134-161), in program
order: the SRT file, the plain-text file, and the JSON file. -/
def save_outputs (segments : List Segment) (output_dir base_name : String) : List Event :=
  [Event.wrote (output_dir ++ "/" ++ base_name ++ ".srt") (srt_content segments),
   Event.wrote (output_dir ++ "/" ++ base_name ++ ".txt") (txt_content segments),
   Event.wroteJson (output_dir ++ "/" ++ base_name ++ ".json") segments]

/-- The outcome of one run: its event trace and whether an exception
propagated to the caller. -/
structure RunResult where
  trace : List Event
  outcome : Except String Unit

/-- Embeds EnhancedTranscriber.transcribe (lines 40-132): create the output
directory, run recognition (a recognition failure propagates), optionally
run the alignment/diarization try block, and save the outputs. -/
def transcribe (env : Env) (audio_path : String) (output_dir : String)
    (align_output : Bool := true) (detect_speakers : Bool := true) : RunResult :=
  match env.recognize with
  | .error e => ⟨[Event.mkdirOutput output_dir, Event.recognitionInvoked], .error e⟩
  | .ok segments =>
    if align_output then
      ⟨[Event.mkdirOutput output_dir, Event.recognitionInvoked] ++
         (alignment_block env audio_path detect_speakers (segments.map rawToSegment)).1 ++
         save_outputs (alignment_block env audio_path detect_speakers (segments.map rawToSegment)).2
           output_dir (stem audio_path), .ok ()⟩
    else
      ⟨[Event.mkdirOutput output_dir, Event.recognitionInvoked] ++
         save_outputs (segments.map rawToSegment) output_dir (stem audio_path), .ok ()⟩

/-- The CLI gate of line 215 of the source: detect_speakers is passed as
(not args.no_speakers) and (args.device == "cuda"). -/
def cli_detect_speakers (no_speakers : Bool) (device : String) : Bool :=
  !no_speakers && device == "cuda"

/-! ## Stage-failure predicates -/

/-- The alignment stage raises with message e: either loading the alignment
model fails, or the model loads and the align call fails. -/
def alignmentStageRaises (env : Env) (audio_path : String)
    (segments_list : List Segment) (e : String) : Prop :=
  env.load_align_model "ja" (alignment_device env) = .error e ∨
  ∃ am, env.load_align_model "ja" (alignment_device env) = .ok am ∧
    env.align (segments_list.map toWhisperXSegment) am audio_path (alignment_device env) =
      .error e

/-- The diarization stage raises with message e: either the diarization
pipeline call fails, or it succeeds and the speaker-merge call fails. -/
def diarizationStageFails (env : Env) (audio_path : String)
    (aligned : List AlignedSegment) (e : String) : Prop :=
  env.diarize audio_path (alignment_device env) = .error e ∨
  ∃ d, env.diarize audio_path (alignment_device env) = .ok d ∧
    env.assign_word_speakers d aligned = .error e

/-- The whole alignment/diarization try block runs to completion without an
exception. -/
def alignBlockSucceeds (env : Env) (audio_path : String) (detect_speakers : Bool)
    (segments_list : List Segment) : Prop :=
  ∃ am aligned,
    env.load_align_model "ja" (alignment_device env) = .ok am ∧
    env.align (segments_list.map toWhisperXSegment) am audio_path (alignment_device env) =
      .ok aligned ∧
    ((detect_speakers && (alignment_device env != "cpu")) = true →
      ∃ d tagged, env.diarize audio_path (alignment_device env) = .ok d ∧
        env.assign_word_speakers d aligned = .ok tagged)

/-! ## Behavior of the try block under failure and success -/

theorem alignment_block_of_raises (env : Env) (audio_path : String) (detect_speakers : Bool)
    (segments_list : List Segment) (e : String)
    (h : alignmentStageRaises env audio_path segments_list e) :
    alignment_block env audio_path detect_speakers segments_list =
      ([Event.warningLogged e], segments_list) := by
  rcases h with h | ⟨am, ham, halign⟩
  · simp only [alignment_block, h]
  · simp only [alignment_block, ham, halign]

theorem alignment_block_of_diar_fails (env : Env) (audio_path : String)
    (segments_list : List Segment) (am : AlignModel) (aligned : List AlignedSegment) (e : String)
    (ham : env.load_align_model "ja" (alignment_device env) = .ok am)
    (halign : env.align (segments_list.map toWhisperXSegment) am audio_path
        (alignment_device env) = .ok aligned)
    (hcuda : env.cudaAvailable = true)
    (h : diarizationStageFails env audio_path aligned e) :
    alignment_block env audio_path true segments_list =
      ([Event.diarizationInvoked, Event.warningLogged e], segments_list) := by
  have hdev : alignment_device env = "cuda" := by simp [alignment_device, hcuda]
  rcases h with h | ⟨d, hd, hassign⟩
  · rw [hdev] at ham halign h
    simp [alignment_block, hdev, ham, halign, h]
  · rw [hdev] at ham halign hd
    simp [alignment_block, hdev, ham, halign, hd, hassign]

/-- C1: when recognition succeeds and the alignment stage raises (either
while loading the alignment model or in the align call itself), the run
completes without propagating the exception, a warning is logged, the three
output files are written, and their content is rendered from the
pre-alignment raw recognition result. -/
theorem alignment_failure_nonfatal (env : Env) (audio_path output_dir : String)
    (detect_speakers : Bool) (raws : List RawSegment) (e : String)
    (hrec : env.recognize = .ok raws)
    (hfail : alignmentStageRaises env audio_path (raws.map rawToSegment) e) :
    (transcribe env audio_path output_dir true detect_speakers).outcome = .ok () ∧
    Event.warningLogged e ∈ (transcribe env audio_path output_dir true detect_speakers).trace ∧
    Event.wrote (output_dir ++ "/" ++ stem audio_path ++ ".srt")
        (srt_content (raws.map rawToSegment)) ∈
      (transcribe env audio_path output_dir true detect_speakers).trace ∧
    Event.wrote (output_dir ++ "/" ++ stem audio_path ++ ".txt")
        (txt_content (raws.map rawToSegment)) ∈
      (transcribe env audio_path output_dir true detect_speakers).trace ∧
    Event.wroteJson (output_dir ++ "/" ++ stem audio_path ++ ".json") (raws.map rawToSegment) ∈
      (transcribe env audio_path output_dir true detect_speakers).trace := by
  have hb := alignment_block_of_raises env audio_path detect_speakers (raws.map rawToSegment) e
    hfail
  simp only [transcribe, hrec, hb, save_outputs, if_true]
  simp [List.mem_append]

/-- Witness for C1: a concrete run whose alignment-model load fails. -/
def rawSegW : RawSegment := { start := 0, end_ := 1, text := "hi" }

/-- Witness environment for C1. -/
def envC1w : Env :=
  { cudaAvailable := false
    recognize := .ok [rawSegW]
    load_align_model := fun _ _ => .error "load failed"
    align := fun _ _ _ _ => .error "unused"
    diarize := fun _ _ => .error "unused"
    assign_word_speakers := fun _ _ => .ok [] }

theorem alignment_failure_nonfatal_witness :
    envC1w.recognize = .ok [rawSegW] ∧
    alignmentStageRaises envC1w "a.wav" ([rawSegW].map rawToSegment) "load failed" ∧
    ((transcribe envC1w "a.wav" "out" true true).outcome = .ok () ∧
     Event.warningLogged "load failed" ∈ (transcribe envC1w "a.wav" "out" true true).trace ∧
     Event.wrote ("out" ++ "/" ++ stem "a.wav" ++ ".srt")
         (srt_content ([rawSegW].map rawToSegment)) ∈
       (transcribe envC1w "a.wav" "out" true true).trace ∧
     Event.wrote ("out" ++ "/" ++ stem "a.wav" ++ ".txt")
         (txt_content ([rawSegW].map rawToSegment)) ∈
       (transcribe envC1w "a.wav" "out" true true).trace ∧
     Event.wroteJson ("out" ++ "/" ++ stem "a.wav" ++ ".json") ([rawSegW].map rawToSegment) ∈
       (transcribe envC1w "a.wav" "out" true true).trace) :=
  ⟨rfl, Or.inl rfl,
    alignment_failure_nonfatal envC1w "a.wav" "out" true [rawSegW] "load failed" rfl (Or.inl rfl)⟩

/-! ## C2: what a diarization failure leaves behind -/

/-- Concrete raw recognition segment for the C2/C3 runs. -/
def rawSegC2 : RawSegment := { start := 0, end_ := 1, text := "hello" }

/-- Concrete post-alignment segment, distinguishable from the raw one. -/
def alignedSegC2 : AlignedSegment := { start := 0, end_ := 1, text := "hello", words := [] }

/-- Environment in which recognition and alignment succeed and diarization
fails. -/
def envC2 : Env :=
  { cudaAvailable := true
    recognize := .ok [rawSegC2]
    load_align_model := fun _ _ => .ok ⟨0⟩
    align := fun _ _ _ _ => .ok [alignedSegC2]
    diarize := fun _ _ => .error "diarization failed"
    assign_word_speakers := fun _ _ => .ok [] }

/-- C2 counterexample: alignment succeeds and diarization then fails, yet
the writer is handed the pre-alignment raw sequence, not the post-alignment
one: the except handler aborts the whole try block before the line that
stores the aligned result into segments_list ever runs. -/
theorem diarization_failure_loses_alignment :
    envC2.align (([rawSegC2].map rawToSegment).map toWhisperXSegment) ⟨0⟩ "a.wav"
        (alignment_device envC2) = .ok [alignedSegC2] ∧
    diarizationStageFails envC2 "a.wav" [alignedSegC2] "diarization failed" ∧
    Event.wroteJson ("out" ++ "/" ++ stem "a.wav" ++ ".json") ([rawSegC2].map rawToSegment) ∈
      (transcribe envC2 "a.wav" "out" true true).trace ∧
    [rawSegC2].map rawToSegment ≠ [alignedSegC2].map alignedToSegment ∧
    Event.wroteJson ("out" ++ "/" ++ stem "a.wav" ++ ".json")
        ([alignedSegC2].map alignedToSegment) ∉
      (transcribe envC2 "a.wav" "out" true true).trace := by
  have htrace : (transcribe envC2 "a.wav" "out" true true).trace =
      [Event.mkdirOutput "out", Event.recognitionInvoked, Event.diarizationInvoked,
       Event.warningLogged "diarization failed",
       Event.wrote ("out" ++ "/" ++ stem "a.wav" ++ ".srt")
         (srt_content ([rawSegC2].map rawToSegment)),
       Event.wrote ("out" ++ "/" ++ stem "a.wav" ++ ".txt")
         (txt_content ([rawSegC2].map rawToSegment)),
       Event.wroteJson ("out" ++ "/" ++ stem "a.wav" ++ ".json")
         ([rawSegC2].map rawToSegment)] := rfl
  refine ⟨rfl, Or.inl rfl, ?_, ?_, ?_⟩
  · rw [htrace]; simp
  · simp [rawToSegment, alignedToSegment, rawSegC2, alignedSegC2]
  · rw [htrace]
    simp [rawToSegment, alignedToSegment, rawSegC2, alignedSegC2]

/-- C2 amended: when alignment succeeds and the diarization stage then
fails, the run still completes with a warning, but the pipeline continues
with the pre-alignment raw recognition result (the whole try block is
rolled back), and that raw sequence is what is handed to the output
writer. -/
theorem diarization_failure_keeps_raw (env : Env) (audio_path output_dir : String)
    (raws : List RawSegment) (am : AlignModel) (aligned : List AlignedSegment) (e : String)
    (hrec : env.recognize = .ok raws)
    (ham : env.load_align_model "ja" (alignment_device env) = .ok am)
    (halign : env.align ((raws.map rawToSegment).map toWhisperXSegment) am audio_path
        (alignment_device env) = .ok aligned)
    (hcuda : env.cudaAvailable = true)
    (hfail : diarizationStageFails env audio_path aligned e) :
    (transcribe env audio_path output_dir true true).outcome = .ok () ∧
    Event.warningLogged e ∈ (transcribe env audio_path output_dir true true).trace ∧
    Event.wroteJson (output_dir ++ "/" ++ stem audio_path ++ ".json") (raws.map rawToSegment) ∈
      (transcribe env audio_path output_dir true true).trace := by
  have hb := alignment_block_of_diar_fails env audio_path (raws.map rawToSegment) am aligned e
    ham halign hcuda hfail
  simp only [transcribe, hrec, hb, save_outputs, if_true]
  simp

/-- Witness for the amended C2 at the concrete C2 environment. -/
theorem diarization_failure_keeps_raw_witness :
    envC2.recognize = .ok [rawSegC2] ∧
    envC2.load_align_model "ja" (alignment_device envC2) = .ok ⟨0⟩ ∧
    envC2.align (([rawSegC2].map rawToSegment).map toWhisperXSegment) ⟨0⟩ "a.wav"
        (alignment_device envC2) = .ok [alignedSegC2] ∧
    envC2.cudaAvailable = true ∧
    diarizationStageFails envC2 "a.wav" [alignedSegC2] "diarization failed" ∧
    ((transcribe envC2 "a.wav" "out" true true).outcome = .ok () ∧
     Event.warningLogged "diarization failed" ∈ (transcribe envC2 "a.wav" "out" true true).trace ∧
     Event.wroteJson ("out" ++ "/" ++ stem "a.wav" ++ ".json") ([rawSegC2].map rawToSegment) ∈
       (transcribe envC2 "a.wav" "out" true true).trace) :=
  ⟨rfl, rfl, rfl, rfl, Or.inl rfl,
    diarization_failure_keeps_raw envC2 "a.wav" "out" [rawSegC2] ⟨0⟩ [alignedSegC2]
      "diarization failed" rfl rfl rfl rfl (Or.inl rfl)⟩

/-! ## C3: resource cleanup -/

/-- Environment in which the alignment model loads and the align call then
raises: model state has been acquired when the exception is caught. -/
def envC3 : Env :=
  { cudaAvailable := false
    recognize := .ok [rawSegC2]
    load_align_model := fun _ _ => .ok ⟨0⟩
    align := fun _ _ _ _ => .error "alignment failed"
    diarize := fun _ _ => .error "unused"
    assign_word_speakers := fun _ _ => .ok [] }

/-- C3 counterexample: on this caught-failure exit path from the
alignment stage — the model was loaded, the align call raised, the handler
caught it and the run returned normally — no cleanup (model deletion,
garbage collection, cache clearing) happens before the pipeline returns:
the cleanup statements sit inside the try block after the raise point. -/
theorem cleanup_missing_counterexample :
    envC3.load_align_model "ja" (alignment_device envC3) = .ok ⟨0⟩ ∧
    (transcribe envC3 "a.wav" "out" true true).outcome = .ok () ∧
    Event.warningLogged "alignment failed" ∈ (transcribe envC3 "a.wav" "out" true true).trace ∧
    Event.cleanup ∉ (transcribe envC3 "a.wav" "out" true true).trace := by
  have htrace : (transcribe envC3 "a.wav" "out" true true).trace =
      [Event.mkdirOutput "out", Event.recognitionInvoked,
       Event.warningLogged "alignment failed",
       Event.wrote ("out" ++ "/" ++ stem "a.wav" ++ ".srt")
         (srt_content ([rawSegC2].map rawToSegment)),
       Event.wrote ("out" ++ "/" ++ stem "a.wav" ++ ".txt")
         (txt_content ([rawSegC2].map rawToSegment)),
       Event.wroteJson ("out" ++ "/" ++ stem "a.wav" ++ ".json")
         ([rawSegC2].map rawToSegment)] := rfl
  refine ⟨rfl, rfl, ?_, ?_⟩
  · rw [htrace]; simp
  · rw [htrace]; simp

theorem cleanup_mem_block (env : Env) (audio_path : String) (detect_speakers : Bool)
    (segments_list : List Segment) :
    Event.cleanup ∈ (alignment_block env audio_path detect_speakers segments_list).1 ↔
      alignBlockSucceeds env audio_path detect_speakers segments_list := by
  unfold alignment_block alignBlockSucceeds
  cases hl : env.load_align_model "ja" (alignment_device env) with
  | error e => simp [hl]
  | ok am =>
    cases ha : env.align (segments_list.map toWhisperXSegment) am audio_path
        (alignment_device env) with
    | error e => simp [hl, ha]
    | ok aligned =>
      cases hg : (detect_speakers && alignment_device env != "cpu") with
      | false => simp [ha, hg]
      | true =>
        cases hd : env.diarize audio_path (alignment_device env) with
        | error e => simp [ha, hg, hd]
        | ok d =>
          cases hs : env.assign_word_speakers d aligned with
          | error e => simp [ha, hg, hd, hs]
          | ok tagged => simp [ha, hg, hd, hs]

/-- C3 amended: when recognition succeeds and alignment is enabled, the
cleanup of transient model state (model deletion, forced garbage
collection, cache clearing) runs before the pipeline returns exactly when
the whole alignment/diarization try block completes without an exception;
on a caught failure the cleanup is skipped. -/
theorem cleanup_iff_success (env : Env) (audio_path output_dir : String)
    (detect_speakers : Bool) (raws : List RawSegment)
    (hrec : env.recognize = .ok raws) :
    Event.cleanup ∈ (transcribe env audio_path output_dir true detect_speakers).trace ↔
      alignBlockSucceeds env audio_path detect_speakers (raws.map rawToSegment) := by
  simp only [transcribe, hrec, if_true, save_outputs]
  rw [← cleanup_mem_block env audio_path detect_speakers (raws.map rawToSegment)]
  simp

/-- Environment in which the whole try block succeeds (no diarization,
device is cpu), for the C3 witness. -/
def envC3w : Env :=
  { cudaAvailable := false
    recognize := .ok [rawSegC2]
    load_align_model := fun _ _ => .ok ⟨0⟩
    align := fun _ _ _ _ => .ok [alignedSegC2]
    diarize := fun _ _ => .error "unused"
    assign_word_speakers := fun _ _ => .ok [] }

/-- Witness for the amended C3 at a concrete successful run. -/
theorem cleanup_iff_success_witness :
    envC3w.recognize = .ok [rawSegC2] ∧
    (Event.cleanup ∈ (transcribe envC3w "a.wav" "out" true true).trace ↔
      alignBlockSucceeds envC3w "a.wav" true ([rawSegC2].map rawToSegment)) :=
  ⟨rfl, cleanup_iff_success envC3w "a.wav" "out" true [rawSegC2] rfl⟩

/-! ## Branch equations for the try block -/

theorem alignment_block_no_diar (env : Env) (audio_path : String) (ds : Bool)
    (segs : List Segment) (am : AlignModel) (aligned : List AlignedSegment)
    (hl : env.load_align_model "ja" (alignment_device env) = .ok am)
    (ha : env.align (segs.map toWhisperXSegment) am audio_path (alignment_device env) =
      .ok aligned)
    (hg : (ds && alignment_device env != "cpu") = false) :
    alignment_block env audio_path ds segs = ([Event.cleanup], aligned.map alignedToSegment) := by
  simp [alignment_block, hl, ha, hg]

theorem alignment_block_diar_error (env : Env) (audio_path : String) (ds : Bool)
    (segs : List Segment) (am : AlignModel) (aligned : List AlignedSegment) (e : String)
    (hl : env.load_align_model "ja" (alignment_device env) = .ok am)
    (ha : env.align (segs.map toWhisperXSegment) am audio_path (alignment_device env) =
      .ok aligned)
    (hg : (ds && alignment_device env != "cpu") = true)
    (hd : env.diarize audio_path (alignment_device env) = .error e) :
    alignment_block env audio_path ds segs =
      ([Event.diarizationInvoked, Event.warningLogged e], segs) := by
  simp [alignment_block, hl, ha, hg, hd]

theorem alignment_block_assign_error (env : Env) (audio_path : String) (ds : Bool)
    (segs : List Segment) (am : AlignModel) (aligned : List AlignedSegment)
    (d : DiarizeSegments) (e : String)
    (hl : env.load_align_model "ja" (alignment_device env) = .ok am)
    (ha : env.align (segs.map toWhisperXSegment) am audio_path (alignment_device env) =
      .ok aligned)
    (hg : (ds && alignment_device env != "cpu") = true)
    (hd : env.diarize audio_path (alignment_device env) = .ok d)
    (hs : env.assign_word_speakers d aligned = .error e) :
    alignment_block env audio_path ds segs =
      ([Event.diarizationInvoked, Event.warningLogged e], segs) := by
  simp [alignment_block, hl, ha, hg, hd, hs]

theorem alignment_block_all_ok (env : Env) (audio_path : String) (ds : Bool)
    (segs : List Segment) (am : AlignModel) (aligned : List AlignedSegment)
    (d : DiarizeSegments) (tagged : List Segment)
    (hl : env.load_align_model "ja" (alignment_device env) = .ok am)
    (ha : env.align (segs.map toWhisperXSegment) am audio_path (alignment_device env) =
      .ok aligned)
    (hg : (ds && alignment_device env != "cpu") = true)
    (hd : env.diarize audio_path (alignment_device env) = .ok d)
    (hs : env.assign_word_speakers d aligned = .ok tagged) :
    alignment_block env audio_path ds segs =
      ([Event.diarizationInvoked, Event.cleanup], tagged) := by
  simp [alignment_block, hl, ha, hg, hd, hs]

/-- Every event of a trace is the directory creation, the recognition
invocation, an event of the try block, or a file write. -/
theorem mem_trace_cases (env : Env) (audio_path output_dir : String) (ds : Bool)
    (ev : Event) (raws : List RawSegment) (hrec : env.recognize = .ok raws)
    (h : ev ∈ (transcribe env audio_path output_dir true ds).trace) :
    ev = Event.mkdirOutput output_dir ∨ ev = Event.recognitionInvoked ∨
    ev ∈ (alignment_block env audio_path ds (raws.map rawToSegment)).1 ∨
    ev ∈ save_outputs (alignment_block env audio_path ds (raws.map rawToSegment)).2
      output_dir (stem audio_path) := by
  simp only [transcribe, hrec, if_true] at h
  rcases List.mem_append.mp h with h2 | h2
  · rcases List.mem_append.mp h2 with h3 | h3
    · simp only [List.mem_cons, List.not_mem_nil, or_false] at h3
      rcases h3 with h4 | h4
      · exact Or.inl h4
      · exact Or.inr (Or.inl h4)
    · exact Or.inr (Or.inr (Or.inl h3))
  · exact Or.inr (Or.inr (Or.inr h2))

/-- Membership of the diarization invocation in the try block forces the
gate open and the preceding load and align calls successful. -/
theorem diar_mem_block (env : Env) (audio_path : String) (ds : Bool) (segs : List Segment)
    (h : Event.diarizationInvoked ∈ (alignment_block env audio_path ds segs).1) :
    (ds && alignment_device env != "cpu") = true ∧
    ∃ am aligned, env.load_align_model "ja" (alignment_device env) = .ok am ∧
      env.align (segs.map toWhisperXSegment) am audio_path (alignment_device env) =
        .ok aligned := by
  cases hl : env.load_align_model "ja" (alignment_device env) with
  | error e =>
    rw [alignment_block_of_raises env audio_path ds segs e (Or.inl hl)] at h
    simp at h
  | ok am =>
    cases ha : env.align (segs.map toWhisperXSegment) am audio_path (alignment_device env) with
    | error e =>
      rw [alignment_block_of_raises env audio_path ds segs e (Or.inr ⟨am, hl, ha⟩)] at h
      simp at h
    | ok aligned =>
      cases hg : (ds && alignment_device env != "cpu") with
      | false =>
        rw [alignment_block_no_diar env audio_path ds segs am aligned hl ha hg] at h
        simp at h
      | true => exact ⟨rfl, am, aligned, rfl, ha⟩

/-- The try block never writes a file. -/
theorem wroteJson_not_mem_block (env : Env) (audio_path : String) (ds : Bool)
    (segs : List Segment) (p : String) (ss : List Segment) :
    Event.wroteJson p ss ∉ (alignment_block env audio_path ds segs).1 := by
  cases hl : env.load_align_model "ja" (alignment_device env) with
  | error e =>
    rw [alignment_block_of_raises env audio_path ds segs e (Or.inl hl)]
    simp
  | ok am =>
    cases ha : env.align (segs.map toWhisperXSegment) am audio_path (alignment_device env) with
    | error e =>
      rw [alignment_block_of_raises env audio_path ds segs e (Or.inr ⟨am, hl, ha⟩)]
      simp
    | ok aligned =>
      cases hg : (ds && alignment_device env != "cpu") with
      | false =>
        rw [alignment_block_no_diar env audio_path ds segs am aligned hl ha hg]
        simp
      | true =>
        cases hd : env.diarize audio_path (alignment_device env) with
        | error e =>
          rw [alignment_block_diar_error env audio_path ds segs am aligned e hl ha hg hd]
          simp
        | ok d =>
          cases hs : env.assign_word_speakers d aligned with
          | error e =>
            rw [alignment_block_assign_error env audio_path ds segs am aligned d e hl ha hg hd
              hs]
            simp
          | ok tagged =>
            rw [alignment_block_all_ok env audio_path ds segs am aligned d tagged hl ha hg hd hs]
            simp

/-- A JSON write among the save_outputs events pins down path and
content. -/
theorem wroteJson_mem_save (p : String) (ss segs : List Segment) (od bn : String)
    (h : Event.wroteJson p ss ∈ save_outputs segs od bn) :
    p = od ++ "/" ++ bn ++ ".json" ∧ ss = segs := by
  simp [save_outputs] at h
  exact h

/-! ## C6: diarization gating -/

/-- C6: the diarization collaborator is invoked only when speaker detection
is enabled, alignment is enabled and has succeeded up to that point (model
loaded, align call succeeded), and the execution device is cuda — never on
a cpu-only device; and at the CLI layer detect_speakers is force-disabled
whenever the selected device is not cuda. -/
theorem diarization_gating (env : Env) (audio_path output_dir : String)
    (align_output detect_speakers : Bool)
    (h : Event.diarizationInvoked ∈
      (transcribe env audio_path output_dir align_output detect_speakers).trace) :
    detect_speakers = true ∧ align_output = true ∧ env.cudaAvailable = true ∧
    alignment_device env = "cuda" ∧
    (∃ raws am aligned, env.recognize = .ok raws ∧
      env.load_align_model "ja" (alignment_device env) = .ok am ∧
      env.align ((raws.map rawToSegment).map toWhisperXSegment) am audio_path
        (alignment_device env) = .ok aligned) ∧
    (∀ no_speakers device, device ≠ "cuda" →
      cli_detect_speakers no_speakers device = false) := by
  have cli : ∀ no_speakers device, device ≠ "cuda" →
      cli_detect_speakers no_speakers device = false := by
    intro ns dev hne
    simp [cli_detect_speakers, hne]
  cases hrec : env.recognize with
  | error e => simp [transcribe, hrec] at h
  | ok raws =>
    cases align_output with
    | false => simp [transcribe, hrec, save_outputs] at h
    | true =>
      rcases mem_trace_cases env audio_path output_dir detect_speakers Event.diarizationInvoked
        raws hrec h with h2 | h2 | h2 | h2
      · exact absurd h2 (by simp)
      · exact absurd h2 (by simp)
      · obtain ⟨hg, am, aligned, hl, ha⟩ :=
          diar_mem_block env audio_path detect_speakers (raws.map rawToSegment) h2
        have hds : detect_speakers = true := by
          cases detect_speakers
          · simp at hg
          · rfl
        have hcuda : env.cudaAvailable = true := by
          cases hc : env.cudaAvailable
          · rw [show alignment_device env = "cpu" from by simp [alignment_device, hc]] at hg
            simp at hg
          · rfl
        have hdev : alignment_device env = "cuda" := by
          simp [alignment_device, hcuda]
        exact ⟨hds, rfl, hcuda, hdev, ⟨raws, am, aligned, rfl, hl, ha⟩, cli⟩
      · exact absurd h2 (by simp [save_outputs])

/-- All-success cuda environment for the C6 witness. -/
def envC6w : Env :=
  { cudaAvailable := true
    recognize := .ok [rawSegC2]
    load_align_model := fun _ _ => .ok ⟨0⟩
    align := fun _ _ _ _ => .ok [alignedSegC2]
    diarize := fun _ _ => .ok []
    assign_word_speakers := fun _ _ => .ok [] }

theorem diarization_gating_witness :
    Event.diarizationInvoked ∈ (transcribe envC6w "a.wav" "out" true true).trace ∧
    (true = true ∧ true = true ∧ envC6w.cudaAvailable = true ∧
     alignment_device envC6w = "cuda" ∧
     (∃ raws am aligned, envC6w.recognize = .ok raws ∧
       envC6w.load_align_model "ja" (alignment_device envC6w) = .ok am ∧
       envC6w.align ((raws.map rawToSegment).map toWhisperXSegment) am "a.wav"
         (alignment_device envC6w) = .ok aligned) ∧
     (∀ no_speakers device, device ≠ "cuda" →
       cli_detect_speakers no_speakers device = false)) := by
  have hmem : Event.diarizationInvoked ∈ (transcribe envC6w "a.wav" "out" true true).trace := by
    rw [show (transcribe envC6w "a.wav" "out" true true).trace =
      [Event.mkdirOutput "out", Event.recognitionInvoked, Event.diarizationInvoked,
       Event.cleanup,
       Event.wrote ("out" ++ "/" ++ stem "a.wav" ++ ".srt") (srt_content []),
       Event.wrote ("out" ++ "/" ++ stem "a.wav" ++ ".txt") (txt_content []),
       Event.wroteJson ("out" ++ "/" ++ stem "a.wav" ++ ".json") []] from rfl]
    simp
  exact ⟨hmem, diarization_gating envC6w "a.wav" "out" true true hmem⟩

/-! ## C7: recognition failure is fatal and is the only fatal stage -/

/-- C7: when the recognition stage fails, the run propagates that failure
to the caller and writes no output files; and a run propagates a failure
only when the recognition stage failed — no other stage's failure surfaces. -/
theorem recognition_failure_fatal (env : Env) (audio_path output_dir : String)
    (align_output detect_speakers : Bool) (e : String)
    (hrec : env.recognize = .error e) :
    (transcribe env audio_path output_dir align_output detect_speakers).outcome = .error e ∧
    (∀ p c, Event.wrote p c ∉
      (transcribe env audio_path output_dir align_output detect_speakers).trace) ∧
    (∀ p segs, Event.wroteJson p segs ∉
      (transcribe env audio_path output_dir align_output detect_speakers).trace) ∧
    (∀ env2 ap2 od2 ao2 ds2 e2, (transcribe env2 ap2 od2 ao2 ds2).outcome = .error e2 →
      env2.recognize = .error e2) := by
  refine ⟨by simp [transcribe, hrec], by simp [transcribe, hrec], by simp [transcribe, hrec], ?_⟩
  intro env2 ap2 od2 ao2 ds2 e2 hout
  cases h2 : env2.recognize with
  | error e3 =>
    simp [transcribe, h2] at hout
    rw [hout]
  | ok raws =>
    cases ao2 <;> simp [transcribe, h2] at hout

/-- Failing-recognition environment for the C7 witness. -/
def envC7w : Env :=
  { cudaAvailable := false
    recognize := .error "no audio decodable"
    load_align_model := fun _ _ => .error "unused"
    align := fun _ _ _ _ => .error "unused"
    diarize := fun _ _ => .error "unused"
    assign_word_speakers := fun _ _ => .ok [] }

theorem recognition_failure_fatal_witness :
    envC7w.recognize = .error "no audio decodable" ∧
    ((transcribe envC7w "a.wav" "out" true true).outcome = .error "no audio decodable" ∧
     (∀ p c, Event.wrote p c ∉ (transcribe envC7w "a.wav" "out" true true).trace) ∧
     (∀ p segs, Event.wroteJson p segs ∉ (transcribe envC7w "a.wav" "out" true true).trace) ∧
     (∀ env2 ap2 od2 ao2 ds2 e2, (transcribe env2 ap2 od2 ao2 ds2).outcome = .error e2 →
       env2.recognize = .error e2)) :=
  ⟨rfl, recognition_failure_fatal envC7w "a.wav" "out" true true "no audio decodable" rfl⟩

/-! ## C8: speaker labels in the rendered outputs -/

theorem rawToSegment_speaker (raws : List RawSegment) :
    ∀ seg ∈ raws.map rawToSegment, seg.speaker = none := by
  intro seg hseg
  obtain ⟨r, _, rfl⟩ := List.mem_map.mp hseg
  rfl

theorem alignedToSegment_speaker (al : List AlignedSegment) :
    ∀ seg ∈ al.map alignedToSegment, seg.speaker = none := by
  intro seg hseg
  obtain ⟨r, _, rfl⟩ := List.mem_map.mp hseg
  rfl

theorem wroteJson_speakers (env : Env) (audio_path output_dir : String)
    (align_output detect_speakers : Bool) (path : String) (segs : List Segment)
    (h : Event.wroteJson path segs ∈
      (transcribe env audio_path output_dir align_output detect_speakers).trace) :
    (∀ seg ∈ segs, seg.speaker = none) ∨
    ((detect_speakers && alignment_device env != "cpu") = true ∧
      ∃ raws am aligned d, env.recognize = .ok raws ∧
        env.load_align_model "ja" (alignment_device env) = .ok am ∧
        env.align ((raws.map rawToSegment).map toWhisperXSegment) am audio_path
          (alignment_device env) = .ok aligned ∧
        env.diarize audio_path (alignment_device env) = .ok d ∧
        env.assign_word_speakers d aligned = .ok segs) := by
  cases hrec : env.recognize with
  | error e => simp [transcribe, hrec] at h
  | ok raws =>
    cases align_output with
    | false =>
      simp [transcribe, hrec, save_outputs] at h
      refine Or.inl ?_
      rw [h.2]
      exact rawToSegment_speaker raws
    | true =>
      rcases mem_trace_cases env audio_path output_dir detect_speakers
        (Event.wroteJson path segs) raws hrec h with h2 | h2 | h2 | h2
      · exact absurd h2 (by simp)
      · exact absurd h2 (by simp)
      · exact absurd h2
          (wroteJson_not_mem_block env audio_path detect_speakers (raws.map rawToSegment)
            path segs)
      · obtain ⟨hp, hs⟩ := wroteJson_mem_save path segs _ output_dir (stem audio_path) h2
        cases hl : env.load_align_model "ja" (alignment_device env) with
        | error e =>
          rw [alignment_block_of_raises env audio_path detect_speakers (raws.map rawToSegment)
            e (Or.inl hl)] at hs
          refine Or.inl ?_
          rw [hs]
          exact rawToSegment_speaker raws
        | ok am =>
          cases ha : env.align ((raws.map rawToSegment).map toWhisperXSegment) am audio_path
              (alignment_device env) with
          | error e =>
            rw [alignment_block_of_raises env audio_path detect_speakers
              (raws.map rawToSegment) e (Or.inr ⟨am, hl, ha⟩)] at hs
            refine Or.inl ?_
            rw [hs]
            exact rawToSegment_speaker raws
          | ok aligned =>
            cases hg : (detect_speakers && alignment_device env != "cpu") with
            | false =>
              rw [alignment_block_no_diar env audio_path detect_speakers
                (raws.map rawToSegment) am aligned hl ha hg] at hs
              refine Or.inl ?_
              rw [hs]
              exact alignedToSegment_speaker aligned
            | true =>
              cases hd : env.diarize audio_path (alignment_device env) with
              | error e =>
                rw [alignment_block_diar_error env audio_path detect_speakers
                  (raws.map rawToSegment) am aligned e hl ha hg hd] at hs
                refine Or.inl ?_
                rw [hs]
                exact rawToSegment_speaker raws
              | ok d =>
                cases hass : env.assign_word_speakers d aligned with
                | error e =>
                  rw [alignment_block_assign_error env audio_path detect_speakers
                    (raws.map rawToSegment) am aligned d e hl ha hg hd hass] at hs
                  refine Or.inl ?_
                  rw [hs]
                  exact rawToSegment_speaker raws
                | ok tagged =>
                  rw [alignment_block_all_ok env audio_path detect_speakers
                    (raws.map rawToSegment) am aligned d tagged hl ha hg hd hass] at hs
                  refine Or.inr ⟨rfl, raws, am, aligned, d, rfl, rfl, ha, rfl, ?_⟩
                  rw [hs]
                  exact hass

/-- C8: in the subtitle and plain-text outputs the text line is the segment
text with the bracketed speaker label prepended exactly when the segment
carries a speaker field (and the label equals that field); and any segment
sequence written by a run in which diarization did not run to success
carries no speaker field on any segment. -/
theorem speaker_labeling :
    (∀ i seg sp, seg.speaker = some sp →
      srt_block i seg =
        toString i ++ "\n" ++ format_timestamp seg.start ++ " --> " ++
          format_timestamp seg.end_ ++ "\n" ++ ("[" ++ sp ++ "] " ++ seg.text) ++ "\n\n" ∧
      txt_block seg =
        "[" ++ format_timestamp seg.start ++ " --> " ++ format_timestamp seg.end_ ++ "]" ++
          "\n" ++ ("[" ++ sp ++ "] " ++ seg.text) ++ "\n\n") ∧
    (∀ i seg, seg.speaker = none →
      srt_block i seg =
        toString i ++ "\n" ++ format_timestamp seg.start ++ " --> " ++
          format_timestamp seg.end_ ++ "\n" ++ seg.text ++ "\n\n" ∧
      txt_block seg =
        "[" ++ format_timestamp seg.start ++ " --> " ++ format_timestamp seg.end_ ++ "]" ++
          "\n" ++ seg.text ++ "\n\n") ∧
    (∀ env audio_path output_dir align_output detect_speakers path segs,
      Event.wroteJson path segs ∈
        (transcribe env audio_path output_dir align_output detect_speakers).trace →
      (∀ seg ∈ segs, seg.speaker = none) ∨
      ((detect_speakers && alignment_device env != "cpu") = true ∧
        ∃ raws am aligned d, env.recognize = .ok raws ∧
          env.load_align_model "ja" (alignment_device env) = .ok am ∧
          env.align ((raws.map rawToSegment).map toWhisperXSegment) am audio_path
            (alignment_device env) = .ok aligned ∧
          env.diarize audio_path (alignment_device env) = .ok d ∧
          env.assign_word_speakers d aligned = .ok segs)) := by
  refine ⟨?_, ?_, ?_⟩
  · intro i seg sp hsp
    constructor <;> simp [srt_block, txt_block, speaker_text, hsp]
  · intro i seg hsp
    constructor <;> simp [srt_block, txt_block, speaker_text, hsp]
  · intro env audio_path output_dir align_output detect_speakers path segs h
    exact wroteJson_speakers env audio_path output_dir align_output detect_speakers path segs h

/-! ## C10: output directory creation precedes recognition -/

/-- C10: every trace starts with the output-directory creation followed by
the recognition invocation; in particular on a fatal recognition failure the
directory has already been created although no output file is written. -/
theorem mkdir_before_recognition (env : Env) (audio_path output_dir : String)
    (align_output detect_speakers : Bool) :
    (∃ rest, (transcribe env audio_path output_dir align_output detect_speakers).trace =
      Event.mkdirOutput output_dir :: Event.recognitionInvoked :: rest) ∧
    (∀ e, env.recognize = .error e →
      (transcribe env audio_path output_dir align_output detect_speakers).outcome = .error e ∧
      Event.mkdirOutput output_dir ∈
        (transcribe env audio_path output_dir align_output detect_speakers).trace ∧
      (∀ p c, Event.wrote p c ∉
        (transcribe env audio_path output_dir align_output detect_speakers).trace) ∧
      (∀ p segs, Event.wroteJson p segs ∉
        (transcribe env audio_path output_dir align_output detect_speakers).trace)) := by
  constructor
  · cases hrec : env.recognize with
    | error e => exact ⟨[], by simp [transcribe, hrec]⟩
    | ok raws =>
      cases align_output with
      | false =>
        refine ⟨save_outputs (raws.map rawToSegment) output_dir (stem audio_path), ?_⟩
        simp [transcribe, hrec]
      | true =>
        refine ⟨(alignment_block env audio_path detect_speakers (raws.map rawToSegment)).1 ++
          save_outputs (alignment_block env audio_path detect_speakers
            (raws.map rawToSegment)).2 output_dir (stem audio_path), ?_⟩
        simp [transcribe, hrec]
  · intro e he
    refine ⟨by simp [transcribe, he], by simp [transcribe, he], by simp [transcribe, he],
      by simp [transcribe, he]⟩

end EnhancedWhisper
